import Mathlib

/-!
Verification of the finance Telegram bot `src/plata/bot_finanzas_sheets.py`.

The Python source is shallowly embedded below: each handler and helper of
the source becomes an executable Lean definition carrying the same name
(Spanish, as in the source).  Machine integers are modelled as `Int`/`Nat`;
amounts read from the sheet are parsed exactly (Python parses them through
IEEE doubles, which agree with the exact value for all amounts below 2^53;
amounts at or beyond 2^53 are outside the modelled range).  String handling
is modelled on the ASCII/Latin-1 range, which covers every literal the
program compares against (`crédito`, `débito`, `hoy`, ...).
-/

namespace Plata

/-! ## Character-level primitives (models of Python `str` methods) -/

/-- Model of a Python whitespace character as removed by `str.strip()`
(space, tab, newline, carriage return, vertical tab, form feed). -/
def isSpaceChar (c : Char) : Bool :=
  c.toNat = 32 || c.toNat = 9 || c.toNat = 10 || c.toNat = 13 ||
  c.toNat = 11 || c.toNat = 12

/-- ASCII decimal digit `0`..`9` (the digits accepted by Python's
number parsing in the inputs this program sees). -/
def isAsciiDigit (c : Char) : Bool :=
  48 ≤ c.toNat && c.toNat ≤ 57

/-- Numeric value of an ASCII digit character. -/
def digitVal (c : Char) : Nat := c.toNat - 48

/-- Model of Python `str.strip()` on a character list: drop whitespace
from both ends. -/
def pyStripList (cs : List Char) : List Char :=
  ((cs.dropWhile isSpaceChar).reverse.dropWhile isSpaceChar).reverse

/-- Model of Python `str.strip()`. -/
def pyStrip (s : String) : String := ⟨pyStripList s.data⟩

/-- Model of Python `str.lower()` on the ASCII and Latin-1 letters
(`A`-`Z` and `À`-`Þ` except `×` map down by 32; everything else fixed). -/
def lowerChar (c : Char) : Char :=
  if (65 ≤ c.toNat && c.toNat ≤ 90) ||
     (192 ≤ c.toNat && c.toNat ≤ 222 && c.toNat ≠ 215) then
    Char.ofNat (c.toNat + 32)
  else c

/-- Model of Python `str.upper()` on the ASCII and Latin-1 letters. -/
def upperChar (c : Char) : Char :=
  if (97 ≤ c.toNat && c.toNat ≤ 122) ||
     (224 ≤ c.toNat && c.toNat ≤ 254 && c.toNat ≠ 247) then
    Char.ofNat (c.toNat - 32)
  else c

/-- Model of Python `str.lower()`. -/
def pyLower (s : String) : String := ⟨s.data.map lowerChar⟩

/-- Model of Python `str.upper()`. -/
def pyUpper (s : String) : String := ⟨s.data.map upperChar⟩

/-- Model of Python `str.replace(old, '')` for a single character:
remove every occurrence of `c`. -/
def removeChar (c : Char) (s : String) : String :=
  ⟨s.data.filter (fun x => x ≠ c)⟩

/-! ## Numeric parsing (models of Python `int`/`float` conversions) -/

/-- Base-10 value of a digit string (big-endian). -/
def digitsVal (cs : List Char) : Nat :=
  cs.foldl (fun a c => 10 * a + digitVal c) 0

/-- Model of Python `int(float(s))` for the decimal literals this program
stores and reads: optional sign, integer digits, optional `.` and fraction
digits; the result is truncated toward zero (so only the signed integer
part survives).  Python's `float` also strips surrounding whitespace, which
is modelled here.  Exponents, `inf`/`nan`, underscores and non-ASCII digits
are outside the modelled input range, and amounts are modelled exactly
(IEEE rounding of literals at or above 2^53 is out of scope). -/
def parseFloatTruncList (cs0 : List Char) : Option Int :=
  let cs := pyStripList cs0
  let sg : Int := if cs.head? = some '-' then -1 else 1
  let cs := if cs.head? = some '-' || cs.head? = some '+' then cs.tail else cs
  let ip := cs.takeWhile isAsciiDigit
  let rest := cs.dropWhile isAsciiDigit
  match rest with
  | [] => if ip.isEmpty then none else some (sg * (digitsVal ip : Int))
  | '.' :: fr =>
      if fr.all isAsciiDigit && !(ip.isEmpty && fr.isEmpty) then
        some (sg * (digitsVal ip : Int))
      else none
  | _ => none

/-- `parseFloatTruncList` on a string. -/
def parseFloatTrunc (s : String) : Option Int := parseFloatTruncList s.data

/-- Model of Python `int(s)` on a string: optional sign then decimal
digits (surrounding whitespace tolerated, as `int` does).  Underscored
and non-ASCII digit literals are outside the modelled input range. -/
def pyIntParse (s : String) : Option Int :=
  let cs := pyStripList s.data
  let sg : Int := if cs.head? = some '-' then -1 else 1
  let cs := if cs.head? = some '-' || cs.head? = some '+' then cs.tail else cs
  if !cs.isEmpty && cs.all isAsciiDigit then some (sg * (digitsVal cs : Int))
  else none

/-- Model of `re.match(r'^-?\d+', s)`: the maximal leading
optional-minus-then-digits segment of `s`, if any. -/
def leadingInt (s : String) : Option String :=
  match s.data with
  | '-' :: t =>
      let ds := t.takeWhile isAsciiDigit
      if ds.isEmpty then none else some ⟨'-' :: ds⟩
  | cs =>
      let ds := cs.takeWhile isAsciiDigit
      if ds.isEmpty then none else some ⟨ds⟩

/-- Decimal digit character (for rendering integers back to sheet cells,
as Python `str(int)` does). -/
def digitChar (k : Nat) : Char :=
  match k with
  | 0 => '0' | 1 => '1' | 2 => '2' | 3 => '3' | 4 => '4'
  | 5 => '5' | 6 => '6' | 7 => '7' | 8 => '8' | _ => '9'

/-- Big-endian decimal digits, by structural recursion on a fuel bound
(any fuel above the value itself suffices; see `natDigitsAux_spec`). -/
def natDigitsAux : Nat → Nat → List Char
  | 0, _ => []
  | fuel + 1, n =>
      if n < 10 then [digitChar n]
      else natDigitsAux fuel (n / 10) ++ [digitChar (n % 10)]

/-- Big-endian decimal digits of a natural number (model of Python
`str(n)` for `n ≥ 0`). -/
def natDigits (n : Nat) : List Char := natDigitsAux (n + 1) n

/-- Model of Python `str(n)` for an integer. -/
def intToString (n : Int) : String :=
  if n < 0 then ⟨'-' :: natDigits n.natAbs⟩ else ⟨natDigits n.toNat⟩

/-! ## The Ledger Aggregator

`calcular_saldo_desde_movimientos` and `obtener_ultimos_movimientos`
operate on the snapshot returned by `get_all_values()`.  The snapshot is
modelled as `Except Unit (List (List String))`: `.error` is the store
raising (network/auth failure), `.ok rows` a successful read.  Both
functions catch every exception and fall back to `0.0` / `[]`, which the
embedding reproduces. -/

/-- Signed contribution of one raw row to the balance, as computed by the
loop body of `calcular_saldo_desde_movimientos` (source lines 94-108):
rows with at most 2 columns contribute nothing; otherwise the direction
cell is stripped and lowercased, the amount cell is stripped, commas are
removed and it is parsed by `int(float(.))`; unparseable amounts are
skipped (`except (ValueError, IndexError): continue`), `crédito` adds,
`débito` subtracts, any other direction is ignored. -/
def rowDelta (row : List String) : Int :=
  match row with
  | tipoCell :: _ :: montoCell :: _ =>
      let tipo := pyLower (pyStrip tipoCell)
      match parseFloatTrunc (removeChar ',' (pyStrip montoCell)) with
      | some m =>
          if tipo = "crédito" then m
          else if tipo = "débito" then -m
          else 0
      | none => 0
  | _ => 0

/-- Embedding of `calcular_saldo_desde_movimientos` (source lines 82-112):
on a failed read the exception handler returns `0.0`; with fewer than two
rows (no data or header only) it returns `0.0`; otherwise it folds
`rowDelta` over the rows after the header. -/
def calcular_saldo_desde_movimientos
    (readResult : Except Unit (List (List String))) : Int :=
  match readResult with
  | .error _ => 0
  | .ok allData =>
      if allData.length < 2 then 0
      else ((allData.drop 1).map rowDelta).sum

/-- Model of the Python slice `l[-n:]` for a natural `n`: with `n = 0`
the slice is `l[0:]`, the whole list; otherwise the last `n` elements. -/
def pyTakeLast (n : Nat) (l : List α) : List α :=
  if n = 0 then l else l.drop (l.length - n)

/-- Thousands grouping of a reversed (little-endian) digit list, by
structural recursion on a fuel bound (the list length suffices). -/
def groupRevAux : Nat → List Char → List Char
  | 0, cs => cs
  | fuel + 1, cs =>
      if cs.length ≤ 3 then cs
      else cs.take 3 ++ ',' :: groupRevAux fuel (cs.drop 3)

/-- Thousands grouping of a reversed (little-endian) digit list:
insert `,` after every 3 digits. -/
def groupRev (cs : List Char) : List Char := groupRevAux cs.length cs

/-- Model of Python `f"{n:,}"`: decimal rendering with thousands
separators. -/
def formatThousands (n : Int) : String :=
  if n < 0 then ⟨'-' :: ((groupRev (natDigits n.natAbs).reverse).reverse)⟩
  else ⟨(groupRev (natDigits n.toNat).reverse).reverse⟩

/-- Formatting of one raw movement row for the history table, as in the
loop body of `obtener_ultimos_movimientos` (source lines 129-145):
direction upper-cased (`N/A` if the row is empty), description defaulted,
amount parsed by `int(float(.))` (note: the raw cell, commas NOT removed
here) and rendered with thousands separators — `Error` if it fails to
parse, `0` if the cell is missing or blank — and date defaulted.  The
output row is `[date, direction, amount, description]`. -/
def formatMove (move : List String) : List String :=
  let movimiento := match move[0]? with
    | some v => pyUpper v
    | none => "N/A"
  let descripcion := (move[1]?).getD "Sin descripción"
  let monto := match move[2]? with
    | some v =>
        if pyStripList v.data = [] then "0"
        else match parseFloatTrunc v with
          | some n => formatThousands n
          | none => "Error"
    | none => "0"
  let fecha := (move[3]?).getD "Fecha desconocida"
  [fecha, movimiento, monto, descripcion]

/-- Embedding of `obtener_ultimos_movimientos` (source lines 114-150):
`[]` on a failed read or fewer than two rows; otherwise the slice
`all_data[1:][-num:][::-1]` formatted row by row. -/
def obtener_ultimos_movimientos
    (readResult : Except Unit (List (List String))) (num : Nat := 10) :
    List (List String) :=
  match readResult with
  | .error _ => []
  | .ok allData =>
      if allData.length < 2 then []
      else ((pyTakeLast num (allData.drop 1)).reverse).map formatMove

/-! ## Dates

`fecha` uses `datetime.today()`, `timedelta` subtraction, `strftime`
(`'%Y-%m-%d'`) and `strptime` (same format).  Calendar arithmetic is
modelled with the standard civil-calendar/day-number conversions. -/

/-- Split a character list at every occurrence of a separator (model of
splitting a string on `-`, as the `%Y-%m-%d` pattern does): adjacent or
boundary separators yield empty segments. -/
def splitOnChar (sep : Char) (cs : List Char) : List (List Char) :=
  match cs with
  | [] => [[]]
  | c :: t =>
      if c = sep then [] :: splitOnChar sep t
      else
        match splitOnChar sep t with
        | h :: r => (c :: h) :: r
        | [] => [[c]]

/-- A calendar date as the proleptic Gregorian triple used by
`datetime.date`. -/
structure PyDate where
  y : Int
  m : Int
  d : Int
deriving DecidableEq, Repr

/-- Gregorian leap-year test. -/
def isLeap (y : Int) : Bool :=
  (y % 4 = 0 && y % 100 ≠ 0) || y % 400 = 0

/-- Number of days in a month of a given year. -/
def daysInMonth (y m : Int) : Int :=
  if m = 2 then (if isLeap y then 29 else 28)
  else if m = 4 || m = 6 || m = 9 || m = 11 then 30
  else 31

/-- Day number of a civil date (days since 1970-01-01, the standard
days-from-civil computation). -/
def daysFromCivil (date : PyDate) : Int :=
  let y := date.y - (if date.m ≤ 2 then 1 else 0)
  let era := (if 0 ≤ y then y else y - 399) / 400
  let yoe := y - era * 400
  let doy := (153 * (date.m + (if 2 < date.m then -3 else 9)) + 2) / 5 + date.d - 1
  let doe := yoe * 365 + yoe / 4 - yoe / 100 + doy
  era * 146097 + doe - 719468

/-- Civil date of a day number (inverse of `daysFromCivil`). -/
def civilFromDays (days : Int) : PyDate :=
  let z := days + 719468
  let era := (if 0 ≤ z then z else z - 146096) / 146097
  let doe := z - era * 146097
  let yoe := (doe - doe / 1460 + doe / 36524 - doe / 146096) / 365
  let y := yoe + era * 400
  let doy := doe - (365 * yoe + yoe / 4 - yoe / 100)
  let mp := (5 * doy + 2) / 153
  let d := doy - (153 * mp + 2) / 5 + 1
  let m := mp + (if mp < 10 then 3 else -9)
  ⟨y + (if m ≤ 2 then 1 else 0), m, d⟩

/-- Model of `today - timedelta(days=n)`. -/
def subDays (date : PyDate) (n : Nat) : PyDate :=
  civilFromDays (daysFromCivil date - n)

/-- Left-pad a digit list with `0` to a given width. -/
def padZero (width : Nat) (cs : List Char) : List Char :=
  List.replicate (width - cs.length) '0' ++ cs

/-- Model of `date.strftime('%Y-%m-%d')`: zero-padded 4-digit year and
2-digit month and day. -/
def fmtDate (date : PyDate) : String :=
  ⟨padZero 4 (natDigits date.y.toNat) ++ '-' ::
   (padZero 2 (natDigits date.m.toNat) ++ '-' ::
    padZero 2 (natDigits date.d.toNat))⟩

/-- Model of `datetime.strptime(s, '%Y-%m-%d')` succeeding: CPython's
`_strptime` matches `%Y` as exactly four digits but `%m` and `%d` as one
OR two digits (no zero-padding required), requires the whole string to be
consumed, and then validates the triple by constructing `datetime.date`
(year at least 1, day at most the month's length).  Returns the parsed
triple on success. -/
def strptimeYMD (s : String) : Option PyDate :=
  match (splitOnChar '-' s.data).map (fun cs => (⟨cs⟩ : String)) with
  | [ys, ms, ds] =>
      if ys.length = 4 && ys.data.all isAsciiDigit &&
         1 ≤ ms.length && ms.length ≤ 2 && ms.data.all isAsciiDigit &&
         1 ≤ ds.length && ds.length ≤ 2 && ds.data.all isAsciiDigit then
        let y : Int := digitsVal ys.data
        let m : Int := digitsVal ms.data
        let d : Int := digitsVal ds.data
        if 1 ≤ y && 1 ≤ m && m ≤ 12 && 1 ≤ d && d ≤ daysInMonth y m then
          some ⟨y, m, d⟩
        else none
      else none
  | _ => none

/-- The date string the `fecha` handler stores for a given input (source
lines 346-367): the case-insensitive keywords `hoy`/`ayer`/`anteayer`
resolve to today minus 0/1/2 days rendered by `strftime`; any other input
is kept VERBATIM if `strptime` accepts it; otherwise `none` (the
`InvalidDate` reprompt path). -/
def resolveFecha (today : PyDate) (input : String) : Option String :=
  let s := pyStrip input
  if pyLower s = "hoy" then some (fmtDate today)
  else if pyLower s = "ayer" then some (fmtDate (subDays today 1))
  else if pyLower s = "anteayer" then some (fmtDate (subDays today 2))
  else if (strptimeYMD s).isSome then some s
  else none

/-! ## The Session and the Conversation State Machine

`context.user_data` holds `temp_data` (a dict accumulating the movement
being built) and `selected_sheet`.  The `ConversationHandler` states and
per-state handlers of `main()` (source lines 516-555) are embedded as a
total step function `dispatch`.  The Telegram transport and the sheet
store are abstracted: the store is a function from sheet to row list, and
each handler returns the updated session, the next state (`none` models
`ConversationHandler.END`), the reply sent, and the updated store. -/

/-- The two worksheets of the deployment. -/
inductive SheetId | personal | negocios
deriving DecidableEq, Repr

/-- The in-progress movement dict `temp_data`: each key is present or
absent, mirroring the Python dict entries. -/
structure TempData where
  account_name : Option String := none
  movimiento : Option String := none
  descripcion : Option String := none
  monto : Option Int := none
  fecha : Option String := none
deriving DecidableEq, Repr

/-- `context.user_data`: `temp_data` and `selected_sheet`, each possibly
absent (popped). -/
structure Session where
  temp_data : Option TempData
  selected_sheet : Option SheetId
deriving DecidableEq, Repr

/-- The `ConversationHandler` states (source lines 29-36). -/
inductive BotState
  | menuPrincipal
  | tipoCuenta
  | tipoMovimiento
  | descripcionSt
  | montoSt
  | fechaSt
  | verSaldo
  | verUltimos
deriving DecidableEq, Repr

/-- The contents of the account ledgers, as read and appended through
gspread. -/
def Store := SheetId → List (List String)

/-- The replies the bot can send in one turn (identified up to the
dynamic values interpolated into them; a constructor per distinct
`reply_text` site). -/
inductive Reply
  | mainMenu
  | sesionFinalizada
  | volverMenu
  | promptCuentaRegistro
  | promptCuentaSaldo
  | promptCuentaHistorial
  | promptTipoMovimiento
  | promptDescripcion
  | promptMonto
  | promptFecha
  | invalidOpcionMenu
  | invalidCuenta
  | invalidTipoMovimiento
  | invalidMontoNoPositivo
  | invalidMontoFormato
  | invalidFecha
  | errorNoCuenta
  | registradoConSaldo (account : String) (saldo : Int)
  | saldoActual (account : String) (saldo : Int)
  | historial (account : String) (rows : List (List String))
  | historialVacio (account : String)
deriving DecidableEq, Repr

/-- Whether a reply is one of the `❌ ... inválido/a` error messages that
re-prompt the same state. -/
def Reply.isError : Reply → Bool
  | .invalidOpcionMenu | .invalidCuenta | .invalidTipoMovimiento
  | .invalidMontoNoPositivo | .invalidMontoFormato | .invalidFecha => true
  | _ => false

/-- Result of processing one inbound message. -/
structure StepResult where
  session : Session
  next : Option BotState
  reply : Reply
  store : Store

/-- Sheet names as configured (source lines 25-26). -/
def sheetName : SheetId → String
  | .personal => "Personal-Cris"
  | .negocios => "Negocios"

/-- `start` (source lines 173-191): shows the main menu and resets
`temp_data` to an empty dict and `selected_sheet` to `None`. -/
def startSession : Session := ⟨some {}, none⟩

/-- `salir_sesion` (source lines 159-163): clears all user data and ends
the conversation. -/
def salir_sesion (store : Store) : StepResult :=
  ⟨⟨none, none⟩, none, .sesionFinalizada, store⟩

/-- `volver_al_menu` (source lines 165-171): pops `temp_data` and
`selected_sheet`, then runs `start` (which stores a fresh empty dict). -/
def volver_al_menu (store : Store) : StepResult :=
  ⟨startSession, some .menuPrincipal, .volverMenu, store⟩

/-- `menu_principal` (source lines 193-231). -/
def menu_principal (store : Store) (s : Session) (text : String) :
    StepResult :=
  let opcion := pyStrip text
  if opcion = "5" then salir_sesion store
  else if opcion = "1" then ⟨s, some .tipoCuenta, .promptCuentaRegistro, store⟩
  else if opcion = "2" then ⟨s, some .verSaldo, .promptCuentaSaldo, store⟩
  else if opcion = "3" then ⟨s, some .verUltimos, .promptCuentaHistorial, store⟩
  else ⟨s, some .menuPrincipal, .invalidOpcionMenu, store⟩

/-- `tipo_cuenta` (source lines 233-261): selects the sheet, records the
account name in `temp_data` (creating the dict if absent, as
`setdefault` does) and prompts for the direction. -/
def tipo_cuenta (store : Store) (s : Session) (text : String) : StepResult :=
  let opcion := pyStrip text
  if opcion = "1" then
    ⟨⟨some { s.temp_data.getD {} with account_name := some (sheetName .personal) },
      some .personal⟩,
     some .tipoMovimiento, .promptTipoMovimiento, store⟩
  else if opcion = "2" then
    ⟨⟨some { s.temp_data.getD {} with account_name := some (sheetName .negocios) },
      some .negocios⟩,
     some .tipoMovimiento, .promptTipoMovimiento, store⟩
  else ⟨s, some .tipoCuenta, .invalidCuenta, store⟩

/-- `tipo_movimiento` (source lines 263-278): `1` → `Crédito`,
`2` → `Débito`, anything else re-prompts. -/
def tipo_movimiento (store : Store) (s : Session) (text : String) :
    StepResult :=
  let opcion := pyStrip text
  if opcion = "1" then
    ⟨⟨some { s.temp_data.getD {} with movimiento := some "Crédito" },
      s.selected_sheet⟩,
     some .descripcionSt, .promptDescripcion, store⟩
  else if opcion = "2" then
    ⟨⟨some { s.temp_data.getD {} with movimiento := some "Débito" },
      s.selected_sheet⟩,
     some .descripcionSt, .promptDescripcion, store⟩
  else ⟨s, some .tipoMovimiento, .invalidTipoMovimiento, store⟩

/-- `descripcion` (source lines 280-293): stores the raw message text
unconditionally and prompts for the amount. -/
def descripcion (store : Store) (s : Session) (text : String) : StepResult :=
  ⟨⟨some { s.temp_data.getD {} with descripcion := some text },
    s.selected_sheet⟩,
   some .montoSt, .promptMonto, store⟩

/-- The integer the `monto` handler extracts from an input, if any
(source lines 296-313): a preset denomination is taken literally;
otherwise `$` and `,` are removed, then `re.match(r'^-?\d+', .)` replaces
the string by its leading integer segment when one exists, and the result
is parsed by `int`. -/
def montoValue (text : String) : Option Int :=
  let s := pyStrip text
  if s = "10000" then some 10000
  else if s = "20000" then some 20000
  else if s = "50000" then some 50000
  else
    let cleaned := removeChar ',' (removeChar '$' s)
    let c2 := (leadingInt cleaned).getD cleaned
    pyIntParse c2

/-- `monto` (source lines 295-341): parse failure (`ValueError`) and
non-positive values each re-prompt `MONTO`; a positive value is stored in
`temp_data` and the date prompt is shown. -/
def monto (store : Store) (s : Session) (text : String) : StepResult :=
  match montoValue text with
  | none => ⟨s, some .montoSt, .invalidMontoFormato, store⟩
  | some v =>
      if v ≤ 0 then ⟨s, some .montoSt, .invalidMontoNoPositivo, store⟩
      else
        ⟨⟨some { s.temp_data.getD {} with monto := some v }, s.selected_sheet⟩,
         some .fechaSt, .promptFecha, store⟩

/-- `guardar_en_sheet` (source lines 69-80): the appended row is
`[movimiento, descripcion, monto, fecha]` with `""` for each absent key;
the integer amount round-trips through the sheet as its decimal
rendering. -/
def guardar_en_sheet (data : TempData) : List String :=
  [data.movimiento.getD "",
   data.descripcion.getD "",
   (data.monto.map intToString).getD "",
   data.fecha.getD ""]

/-- `fecha` (source lines 343-399): resolve the date (re-prompting on
failure); store it in `temp_data`; with no selected sheet reply with the
restart error and end (`ConversationHandler.END`); otherwise append the
row, recompute the balance from the updated sheet, clear `temp_data` and
`selected_sheet`, and show the main menu again. -/
def fecha (today : PyDate) (store : Store) (s : Session) (text : String) :
    StepResult :=
  match resolveFecha today text with
  | none => ⟨s, some .fechaSt, .invalidFecha, store⟩
  | some f =>
      let tempData := { s.temp_data.getD {} with fecha := some f }
      match s.selected_sheet with
      | none => ⟨⟨some tempData, none⟩, none, .errorNoCuenta, store⟩
      | some sh =>
          let store' : Store := fun x =>
            if x = sh then store sh ++ [guardar_en_sheet tempData] else store x
          let saldo := calcular_saldo_desde_movimientos (.ok (store' sh))
          ⟨⟨none, none⟩, some .menuPrincipal,
           .registradoConSaldo (tempData.account_name.getD "la cuenta seleccionada") saldo,
           store'⟩

/-- `ver_saldo_seleccion_cuenta` (source lines 401-426): on a valid
account choice, reply with the computed balance and return to the main
menu via `start`; otherwise re-prompt. -/
def ver_saldo_seleccion_cuenta (store : Store) (s : Session) (text : String) :
    StepResult :=
  let opcion := pyStrip text
  if opcion = "1" then
    ⟨startSession, some .menuPrincipal,
     .saldoActual (sheetName .personal)
       (calcular_saldo_desde_movimientos (.ok (store .personal))), store⟩
  else if opcion = "2" then
    ⟨startSession, some .menuPrincipal,
     .saldoActual (sheetName .negocios)
       (calcular_saldo_desde_movimientos (.ok (store .negocios))), store⟩
  else ⟨s, some .verSaldo, .invalidCuenta, store⟩

/-- `ver_ultimos_movimientos_seleccion_cuenta` (source lines 428-510):
on a valid account choice, reply with the formatted recent movements (or
the empty-history message) and return to the main menu via `start`;
otherwise re-prompt. -/
def ver_ultimos_seleccion_cuenta (store : Store) (s : Session)
    (text : String) : StepResult :=
  let opcion := pyStrip text
  if opcion = "1" then
    let moves := obtener_ultimos_movimientos (.ok (store .personal)) 10
    ⟨startSession, some .menuPrincipal,
     (if moves.isEmpty then .historialVacio (sheetName .personal)
      else .historial (sheetName .personal) moves), store⟩
  else if opcion = "2" then
    let moves := obtener_ultimos_movimientos (.ok (store .negocios)) 10
    ⟨startSession, some .menuPrincipal,
     (if moves.isEmpty then .historialVacio (sheetName .negocios)
      else .historial (sheetName .negocios) moves), store⟩
  else ⟨s, some .verUltimos, .invalidCuenta, store⟩

/-- The `ConversationHandler` dispatch of `main()` (source lines
516-555): in every state except `MENU_PRINCIPAL`, a message matching the
regex `^0$` is routed to `volver_al_menu` before the state handler;
otherwise the per-state handler runs. -/
def dispatch (store : Store) (today : PyDate) (st : BotState) (s : Session)
    (text : String) : StepResult :=
  if st ≠ BotState.menuPrincipal ∧ text = "0" then volver_al_menu store
  else
    match st with
    | .menuPrincipal => menu_principal store s text
    | .tipoCuenta => tipo_cuenta store s text
    | .tipoMovimiento => tipo_movimiento store s text
    | .descripcionSt => descripcion store s text
    | .montoSt => monto store s text
    | .fechaSt => fecha today store s text
    | .verSaldo => ver_saldo_seleccion_cuenta store s text
    | .verUltimos => ver_ultimos_seleccion_cuenta store s text

/-- The set of inputs a state accepts (everything else takes the
`❌ inválido` re-prompt path of that state's handler): decidable, read off
the branch conditions of each handler. -/
def accepts (st : BotState) (text : String) : Bool :=
  match st with
  | .menuPrincipal =>
      pyStrip text = "1" || pyStrip text = "2" || pyStrip text = "3" ||
      pyStrip text = "5"
  | .tipoCuenta | .verSaldo | .verUltimos =>
      text = "0" || pyStrip text = "1" || pyStrip text = "2"
  | .tipoMovimiento =>
      text = "0" || pyStrip text = "1" || pyStrip text = "2"
  | .descripcionSt => true
  | .montoSt =>
      text = "0" ||
      (match montoValue text with
       | some v => decide (0 < v)
       | none => false)
  | .fechaSt =>
      text = "0" ||
      pyLower (pyStrip text) = "hoy" || pyLower (pyStrip text) = "ayer" ||
      pyLower (pyStrip text) = "anteayer" ||
      (strptimeYMD (pyStrip text)).isSome

/-! ## The specification's reading of the balance

For the refinement claims, the spec's description of `computeBalance` —
sum of credited amounts minus sum of debited amounts over the non-header
rows, skipping malformed rows — is defined independently of the loop
above and compared with it. -/

/-- The direction cell of a row, trimmed and lower-cased. -/
def dirCell (row : List String) : String :=
  pyLower (pyStrip ((row[0]?).getD ""))

/-- The parsed amount of a row: column 3, trimmed, thousands separators
removed, truncated to integer; `none` when the row has fewer than 3
columns or the amount is non-numeric. -/
def amountCell (row : List String) : Option Int :=
  match row with
  | _ :: _ :: m :: _ => parseFloatTrunc (removeChar ',' (pyStrip m))
  | _ => none

/-- The amount a row contributes as a credit, per the spec's wording. -/
def creditAmount (row : List String) : Option Int :=
  if dirCell row = "crédito" then amountCell row else none

/-- The amount a row contributes as a debit, per the spec's wording. -/
def debitAmount (row : List String) : Option Int :=
  if dirCell row = "débito" then amountCell row else none

/-- Sum of the credited amounts of a row list. -/
def creditSum (rows : List (List String)) : Int :=
  (rows.filterMap creditAmount).sum

/-- Sum of the debited amounts of a row list. -/
def debitSum (rows : List (List String)) : Int :=
  (rows.filterMap debitAmount).sum

/-- A row the spec calls malformed: fewer than 3 columns, or a
non-numeric amount. -/
def malformedRow (row : List String) : Prop :=
  row.length < 3 ∨ amountCell row = none

/-! ## Lemmas about digits and string cleanup -/

theorem isAsciiDigit_digitChar (k : Nat) : isAsciiDigit (digitChar k) = true := by
  unfold digitChar
  split <;> decide

theorem digitVal_digitChar (k : Nat) (h : k < 10) :
    digitVal (digitChar k) = k := by
  interval_cases k <;> decide

theorem digitsVal_snoc (cs : List Char) (c : Char) :
    digitsVal (cs ++ [c]) = 10 * digitsVal cs + digitVal c := by
  simp [digitsVal, List.foldl_append]

theorem natDigitsAux_spec (fuel : Nat) :
    ∀ n, n < fuel →
      natDigitsAux fuel n ≠ [] ∧ (natDigitsAux fuel n).all isAsciiDigit = true ∧
      digitsVal (natDigitsAux fuel n) = n := by
  induction fuel with
  | zero => intro n h; omega
  | succ f ih =>
      intro n h
      unfold natDigitsAux
      by_cases h10 : n < 10
      · rw [if_pos h10]
        refine ⟨by simp, by simp [isAsciiDigit_digitChar], ?_⟩
        simpa [digitsVal] using digitVal_digitChar n h10
      · rw [if_neg h10]
        have hdiv : n / 10 < n := Nat.div_lt_self (by omega) (by omega)
        obtain ⟨hne, hall, hval⟩ := ih (n / 10) (by omega)
        refine ⟨by simp, ?_, ?_⟩
        · simp [List.all_append, hall, isAsciiDigit_digitChar]
        · rw [digitsVal_snoc, hval,
            digitVal_digitChar (n % 10) (Nat.mod_lt _ (by omega))]
          omega

theorem natDigits_ne_nil (n : Nat) : natDigits n ≠ [] :=
  (natDigitsAux_spec (n + 1) n (Nat.lt_succ_self n)).1

theorem natDigits_all_digits (n : Nat) :
    (natDigits n).all isAsciiDigit = true :=
  (natDigitsAux_spec (n + 1) n (Nat.lt_succ_self n)).2.1

theorem digitsVal_natDigits (n : Nat) : digitsVal (natDigits n) = n :=
  (natDigitsAux_spec (n + 1) n (Nat.lt_succ_self n)).2.2

theorem not_space_of_digit {c : Char} (h : isAsciiDigit c = true) :
    isSpaceChar c = false := by
  simp [isAsciiDigit] at h
  simp [isSpaceChar]
  omega

theorem dropWhile_eq_self_of_all {p : Char → Bool} {l : List Char}
    (h : ∀ c ∈ l, p c = false) : l.dropWhile p = l := by
  cases l with
  | nil => rfl
  | cons a t =>
      rw [List.dropWhile_cons, if_neg]
      simp [h a (by simp)]

theorem pyStripList_of_digits {cs : List Char}
    (h : cs.all isAsciiDigit = true) : pyStripList cs = cs := by
  have h' : ∀ c ∈ cs, isSpaceChar c = false :=
    fun c hc => not_space_of_digit (List.all_eq_true.mp h c hc)
  unfold pyStripList
  rw [dropWhile_eq_self_of_all h',
    dropWhile_eq_self_of_all (fun c hc => h' c (List.mem_reverse.mp hc)),
    List.reverse_reverse]

theorem removeChar_comma_of_digits {cs : List Char}
    (h : cs.all isAsciiDigit = true) :
    removeChar ',' (⟨cs⟩ : String) = (⟨cs⟩ : String) := by
  have h' : ∀ c ∈ cs, isAsciiDigit c = true := List.all_eq_true.mp h
  unfold removeChar
  congr 1
  refine List.filter_eq_self.mpr fun a ha => ?_
  have ha' : isAsciiDigit a = true := h' a ha
  rw [decide_eq_true_eq]
  intro e
  subst e
  simp [isAsciiDigit] at ha'

theorem parseFloatTruncList_of_digits {cs : List Char} (hne : cs ≠ [])
    (h : cs.all isAsciiDigit = true) :
    parseFloatTruncList cs = some ((digitsVal cs : Int)) := by
  obtain ⟨c, t, rfl⟩ := List.exists_cons_of_ne_nil hne
  have hall := List.all_eq_true.mp h
  have hc : isAsciiDigit c = true := hall c (by simp)
  have hcm : c ≠ '-' := by
    intro e; subst e; simp [isAsciiDigit] at hc
  have hcp : c ≠ '+' := by
    intro e; subst e; simp [isAsciiDigit] at hc
  have hstrip : pyStripList (c :: t) = c :: t := pyStripList_of_digits h
  have htake : List.takeWhile isAsciiDigit t = t :=
    List.takeWhile_eq_self_iff.mpr (fun x hx => hall x (by simp [hx]))
  have hdrop : List.dropWhile isAsciiDigit t = [] :=
    List.dropWhile_eq_nil_iff.mpr (fun x hx => hall x (by simp [hx]))
  simp only [parseFloatTruncList, hstrip, List.head?_cons]
  simp [hcm, hcp, hc, htake, hdrop]

theorem parseFloatTrunc_natDigits (n : Nat) :
    parseFloatTrunc (⟨natDigits n⟩ : String) = some ((n : Int)) := by
  have h : parseFloatTruncList (natDigits n)
      = some ((digitsVal (natDigits n) : Int)) :=
    parseFloatTruncList_of_digits (natDigits_ne_nil n) (natDigits_all_digits n)
  rw [parseFloatTrunc]
  show parseFloatTruncList (natDigits n) = some ((n : Int))
  rw [h, digitsVal_natDigits]

/-! ## Lemmas about the balance fold -/

theorem calcular_ok_eq (rows : List (List String)) :
    calcular_saldo_desde_movimientos (.ok rows)
      = ((rows.drop 1).map rowDelta).sum := by
  match rows with
  | [] => rfl
  | [a] => rfl
  | a :: b :: t =>
      have hlen : ¬ (a :: b :: t).length < 2 := by
        simp only [List.length_cons]; omega
      show (if (a :: b :: t).length < 2 then 0 else
        ((List.drop 1 (a :: b :: t)).map rowDelta).sum) = _
      rw [if_neg hlen]

theorem saldo_append (rows : List (List String)) (r : List String)
    (hne : rows ≠ []) :
    calcular_saldo_desde_movimientos (.ok (rows ++ [r]))
      = calcular_saldo_desde_movimientos (.ok rows) + rowDelta r := by
  obtain ⟨a, t, rfl⟩ := List.exists_cons_of_ne_nil hne
  rw [calcular_ok_eq, calcular_ok_eq]
  simp

theorem rowDelta_split (row : List String) :
    rowDelta row = (creditAmount row).getD 0 - (debitAmount row).getD 0 := by
  match row with
  | [] => simp [rowDelta, creditAmount, debitAmount, amountCell]
  | [a] => simp [rowDelta, creditAmount, debitAmount, amountCell]
  | [a, b] => simp [rowDelta, creditAmount, debitAmount, amountCell]
  | a :: b :: m :: rest =>
      have hdir : dirCell (a :: b :: m :: rest) = pyLower (pyStrip a) := by
        simp [dirCell]
      simp only [rowDelta, creditAmount, debitAmount, amountCell, hdir]
      cases parseFloatTrunc (removeChar ',' (pyStrip m)) with
      | none => simp
      | some v =>
          by_cases h1 : pyLower (pyStrip a) = "crédito"
          · simp +decide [h1]
          · by_cases h2 : pyLower (pyStrip a) = "débito"
            · simp +decide [h1, h2]
            · simp [h1, h2]

theorem creditSum_cons (r : List String) (t : List (List String)) :
    creditSum (r :: t) = (creditAmount r).getD 0 + creditSum t := by
  cases h : creditAmount r <;> simp [creditSum, List.filterMap_cons, h]

theorem debitSum_cons (r : List String) (t : List (List String)) :
    debitSum (r :: t) = (debitAmount r).getD 0 + debitSum t := by
  cases h : debitAmount r <;> simp [debitSum, List.filterMap_cons, h]

theorem sum_rowDelta (rows : List (List String)) :
    (rows.map rowDelta).sum = creditSum rows - debitSum rows := by
  induction rows with
  | nil => simp [creditSum, debitSum]
  | cons r t ih =>
      rw [List.map_cons, List.sum_cons, ih, creditSum_cons, debitSum_cons,
        rowDelta_split]
      ring

theorem rowDelta_of_malformed {row : List String} (h : malformedRow row) :
    rowDelta row = 0 := by
  match row with
  | [] => rfl
  | [a] => rfl
  | [a, b] => rfl
  | a :: b :: m :: rest =>
      rcases h with h | h
      · simp at h; omega
      · simp only [amountCell] at h
        simp [rowDelta, h]

/-! ## Claims about the Ledger Aggregator -/

/-- C1: for every row snapshot, `calcular_saldo_desde_movimientos`
returns the sum of the amounts of non-header rows whose direction is the
credit marker minus the sum of the amounts of non-header rows whose
direction is the debit marker (direction compared case-insensitively
after trimming, amount parsed after stripping thousands separators and
truncating to integer); appending a row with fewer than 3 columns or a
non-numeric amount never changes the result (malformed rows are skipped
silently and do not abort the aggregation); and a snapshot with only a
header row, or no rows at all, yields 0. -/
theorem C1_balance_credits_minus_debits
    (rows : List (List String)) (hdr bad : List String)
    (hbad : malformedRow bad) :
    calcular_saldo_desde_movimientos (.ok rows)
        = creditSum (rows.drop 1) - debitSum (rows.drop 1)
    ∧ calcular_saldo_desde_movimientos (.ok (rows ++ [bad]))
        = calcular_saldo_desde_movimientos (.ok rows)
    ∧ calcular_saldo_desde_movimientos (.ok [hdr]) = 0
    ∧ calcular_saldo_desde_movimientos (.ok ([] : List (List String))) = 0 := by
  refine ⟨?_, ?_, rfl, rfl⟩
  · rw [calcular_ok_eq, sum_rowDelta]
  · cases rows with
    | nil => rfl
    | cons a t =>
        rw [saldo_append _ _ (by simp), rowDelta_of_malformed hbad]
        omega

/-- Witness for C1: a concrete snapshot and a concrete malformed row. -/
theorem C1_balance_credits_minus_debits_witness :
    malformedRow ["crédito", "x", "abc", "2024-01-01"]
    ∧ calcular_saldo_desde_movimientos
        (.ok [["tipo", "desc", "monto", "fecha"],
              ["crédito", "a", "5000", "2024-01-01"],
              ["débito", "b", "2000", "2024-01-02"]])
        = creditSum ([["tipo", "desc", "monto", "fecha"],
              ["crédito", "a", "5000", "2024-01-01"],
              ["débito", "b", "2000", "2024-01-02"]].drop 1)
          - debitSum ([["tipo", "desc", "monto", "fecha"],
              ["crédito", "a", "5000", "2024-01-01"],
              ["débito", "b", "2000", "2024-01-02"]].drop 1)
    ∧ calcular_saldo_desde_movimientos
        (.ok ([["tipo", "desc", "monto", "fecha"],
              ["crédito", "a", "5000", "2024-01-01"],
              ["débito", "b", "2000", "2024-01-02"]]
          ++ [["crédito", "x", "abc", "2024-01-01"]]))
        = calcular_saldo_desde_movimientos
            (.ok [["tipo", "desc", "monto", "fecha"],
              ["crédito", "a", "5000", "2024-01-01"],
              ["débito", "b", "2000", "2024-01-02"]]) := by
  have h := C1_balance_credits_minus_debits
    [["tipo", "desc", "monto", "fecha"],
     ["crédito", "a", "5000", "2024-01-01"],
     ["débito", "b", "2000", "2024-01-02"]]
    ["tipo", "desc", "monto", "fecha"]
    ["crédito", "x", "abc", "2024-01-01"]
    (Or.inr (by decide))
  exact ⟨Or.inr (by decide), h.1, h.2.1⟩

/-- C7: the code conflates a failed store read with an empty ledger —
`calcular_saldo_desde_movimientos` returns 0 when `get_all_values`
raises, the very value it returns for a truly empty ledger, so no
distinguishable failure is reported. -/
theorem C7_store_failure_conflated_with_empty :
    calcular_saldo_desde_movimientos (.error ()) = 0
    ∧ calcular_saldo_desde_movimientos (.ok ([] : List (List String))) = 0
    ∧ calcular_saldo_desde_movimientos (.error ())
        = calcular_saldo_desde_movimientos
            (.ok [["tipo", "desc", "monto", "fecha"]]) :=
  ⟨rfl, rfl, rfl⟩

/-- C8: a movement built by the builder (direction `Crédito`/`Débito`,
any description and date, positive integer amount) and appended by
`guardar_en_sheet` contributes exactly its signed amount when the rows
are re-read and the balance recomputed. -/
theorem C8_roundtrip_signed_amount
    (rows : List (List String)) (hne : rows ≠ [])
    (acct desc dt : Option String) (n : Nat) (_hn : 0 < n) :
    calcular_saldo_desde_movimientos
        (.ok (rows ++ [guardar_en_sheet ⟨acct, some "Crédito", desc, some (n : Int), dt⟩]))
      = calcular_saldo_desde_movimientos (.ok rows) + n
    ∧ calcular_saldo_desde_movimientos
        (.ok (rows ++ [guardar_en_sheet ⟨acct, some "Débito", desc, some (n : Int), dt⟩]))
      = calcular_saldo_desde_movimientos (.ok rows) - n := by
  have hint : intToString ((n : Int)) = (⟨natDigits n⟩ : String) := by
    unfold intToString
    rw [if_neg (not_lt.mpr (Int.natCast_nonneg n)), Int.toNat_natCast]
  have hstrip : pyStrip (⟨natDigits n⟩ : String) = (⟨natDigits n⟩ : String) := by
    unfold pyStrip
    rw [show (⟨natDigits n⟩ : String).data = natDigits n from rfl,
      pyStripList_of_digits (natDigits_all_digits n)]
  have hcomma : removeChar ',' (⟨natDigits n⟩ : String) = (⟨natDigits n⟩ : String) :=
    removeChar_comma_of_digits (natDigits_all_digits n)
  have hparse : parseFloatTrunc (removeChar ',' (pyStrip (intToString ((n : Int)))))
      = some ((n : Int)) := by
    rw [hint, hstrip, hcomma, parseFloatTrunc_natDigits]
  have hdC : rowDelta (guardar_en_sheet ⟨acct, some "Crédito", desc, some (n : Int), dt⟩)
      = (n : Int) := by
    show rowDelta ["Crédito", desc.getD "", intToString ((n : Int)), dt.getD ""] = _
    simp only [rowDelta, hparse]
    rw [if_pos (by decide : pyLower (pyStrip "Crédito") = "crédito")]
  have hdD : rowDelta (guardar_en_sheet ⟨acct, some "Débito", desc, some (n : Int), dt⟩)
      = -(n : Int) := by
    show rowDelta ["Débito", desc.getD "", intToString ((n : Int)), dt.getD ""] = _
    simp only [rowDelta, hparse]
    rw [if_neg (by decide : ¬ pyLower (pyStrip "Débito") = "crédito"),
      if_pos (by decide : pyLower (pyStrip "Débito") = "débito")]
  constructor
  · rw [saldo_append _ _ hne, hdC]
  · rw [saldo_append _ _ hne, hdD]
    omega

/-- Witness for C8: appending a 5000-peso credit and a 5000-peso debit
to a one-movement ledger. -/
theorem C8_roundtrip_signed_amount_witness :
    ([["tipo", "desc", "monto", "fecha"],
      ["Crédito", "inicial", "1000", "2024-01-01"]] : List (List String)) ≠ []
    ∧ (0 : Nat) < 5000
    ∧ calcular_saldo_desde_movimientos
        (.ok ([["tipo", "desc", "monto", "fecha"],
               ["Crédito", "inicial", "1000", "2024-01-01"]]
          ++ [guardar_en_sheet
                ⟨some "Personal-Cris", some "Crédito", some "cafe",
                 some ((5000 : Nat) : Int), some "2024-06-01"⟩]))
        = calcular_saldo_desde_movimientos
            (.ok [["tipo", "desc", "monto", "fecha"],
                  ["Crédito", "inicial", "1000", "2024-01-01"]]) + (5000 : Nat)
    ∧ calcular_saldo_desde_movimientos
        (.ok ([["tipo", "desc", "monto", "fecha"],
               ["Crédito", "inicial", "1000", "2024-01-01"]]
          ++ [guardar_en_sheet
                ⟨some "Personal-Cris", some "Débito", some "cafe",
                 some ((5000 : Nat) : Int), some "2024-06-01"⟩]))
        = calcular_saldo_desde_movimientos
            (.ok [["tipo", "desc", "monto", "fecha"],
                  ["Crédito", "inicial", "1000", "2024-01-01"]]) - (5000 : Nat) := by
  have h := C8_roundtrip_signed_amount
    [["tipo", "desc", "monto", "fecha"],
     ["Crédito", "inicial", "1000", "2024-01-01"]]
    (by decide) (some "Personal-Cris") (some "cafe") (some "2024-06-01")
    5000 (by decide)
  exact ⟨by decide, by decide, h.1, h.2⟩

/-- C9 counterexample: on the spec's scenario rows, whose direction
markers are the English words `credit` and `debit`, the balance computed
by the code is 0, not 3000 — the loop only recognises the Spanish
markers `crédito`/`débito`, so both rows fall into the
ignored-direction case. -/
theorem C9_english_markers_counterexample :
    calcular_saldo_desde_movimientos
        (.ok [["tipo", "desc", "monto", "fecha"],
              ["credit", "coffee", "5000", "2024-01-01"],
              ["debit", "book", "2000", "2024-01-02"]]) = 0
    ∧ calcular_saldo_desde_movimientos
        (.ok [["tipo", "desc", "monto", "fecha"],
              ["credit", "coffee", "5000", "2024-01-01"],
              ["debit", "book", "2000", "2024-01-02"]]) ≠ 3000 := by
  decide

/-- C9 amended: the same scenario with the direction markers the code
actually writes and recognises (`crédito`/`débito`) yields 3000. -/
theorem C9_spanish_markers_balance :
    calcular_saldo_desde_movimientos
        (.ok [["tipo", "desc", "monto", "fecha"],
              ["crédito", "coffee", "5000", "2024-01-01"],
              ["débito", "book", "2000", "2024-01-02"]]) = 3000 := by
  decide

/-- C10: a non-header row with at least 3 columns whose trimmed,
lower-cased direction is neither `crédito` nor `débito` contributes
nothing and leaves the computed balance unchanged, whatever its amount
cell holds. -/
theorem C10_unknown_direction_ignored
    (pre suf : List (List String)) (r : List String)
    (hpre : pre ≠ []) (h3 : 3 ≤ r.length)
    (hc : dirCell r ≠ "crédito") (hd : dirCell r ≠ "débito") :
    rowDelta r = 0
    ∧ calcular_saldo_desde_movimientos (.ok (pre ++ r :: suf))
        = calcular_saldo_desde_movimientos (.ok (pre ++ suf)) := by
  have hdelta : rowDelta r = 0 := by
    match r with
    | [] => simp at h3
    | [a] => simp at h3
    | [a, b] => simp at h3
    | a :: b :: m :: rest =>
        have hdir : dirCell (a :: b :: m :: rest) = pyLower (pyStrip a) := by
          simp [dirCell]
        rw [hdir] at hc hd
        simp only [rowDelta]
        cases parseFloatTrunc (removeChar ',' (pyStrip m)) with
        | none => rfl
        | some v => simp [hc, hd]
  refine ⟨hdelta, ?_⟩
  obtain ⟨p, pt, rfl⟩ := List.exists_cons_of_ne_nil hpre
  rw [calcular_ok_eq, calcular_ok_eq]
  simp [hdelta]

/-- Witness for C10: a well-formed `transferencia` row with a numeric
amount, inserted between two recognised rows. -/
theorem C10_unknown_direction_ignored_witness :
    ([["tipo", "desc", "monto", "fecha"]] : List (List String)) ≠ []
    ∧ 3 ≤ (["transferencia", "x", "100", "2024-01-01"] : List String).length
    ∧ dirCell ["transferencia", "x", "100", "2024-01-01"] ≠ "crédito"
    ∧ dirCell ["transferencia", "x", "100", "2024-01-01"] ≠ "débito"
    ∧ rowDelta ["transferencia", "x", "100", "2024-01-01"] = 0
    ∧ calcular_saldo_desde_movimientos
        (.ok ([["tipo", "desc", "monto", "fecha"]]
          ++ ["transferencia", "x", "100", "2024-01-01"]
            :: [["crédito", "y", "50", "2024-01-02"]]))
        = calcular_saldo_desde_movimientos
            (.ok ([["tipo", "desc", "monto", "fecha"]]
              ++ [["crédito", "y", "50", "2024-01-02"]])) := by
  have h := C10_unknown_direction_ignored
    [["tipo", "desc", "monto", "fecha"]]
    [["crédito", "y", "50", "2024-01-02"]]
    ["transferencia", "x", "100", "2024-01-01"]
    (by decide) (by decide) (by decide) (by decide)
  exact ⟨by decide, by decide, by decide, by decide, h.1, h.2⟩

/-! ## Claims about the recent-movements view -/

theorem getLast?_drop_of_lt {α : Type} (l : List α) (m : Nat)
    (h : m < l.length) : (l.drop m).getLast? = l.getLast? := by
  conv_rhs => rw [← List.take_append_drop m l]
  rw [List.getLast?_append_of_ne_nil]
  apply List.ne_nil_of_length_pos
  rw [List.length_drop]
  omega

theorem obtener_ok_eq (rows : List (List String)) (k : Nat) :
    obtener_ultimos_movimientos (.ok rows) k
      = ((pyTakeLast k (rows.drop 1)).reverse).map formatMove := by
  by_cases h2 : rows.length < 2
  · have hnil : rows.drop 1 = [] := List.drop_eq_nil_iff.mpr (by omega)
    show (if rows.length < 2 then [] else _) = _
    rw [if_pos h2, hnil]
    simp [pyTakeLast]
  · show (if rows.length < 2 then [] else
      ((pyTakeLast k (rows.drop 1)).reverse).map formatMove) = _
    rw [if_neg h2]

/-- C4 (amended to positive limits): for every row snapshot and every
limit `k ≥ 1`, `obtener_ultimos_movimientos` returns the last `k`
non-header rows reversed (most recently appended first) and formatted,
hence at most `k` entries; it returns the empty sequence when there are
no data rows; and its first entry, when any, is the formatted last
appended data row. -/
theorem C4_recent_movements_newest_first
    (rows : List (List String)) (k : Nat) (hk : 0 < k) :
    obtener_ultimos_movimientos (.ok rows) k
      = ((pyTakeLast k (rows.drop 1)).reverse).map formatMove
    ∧ (obtener_ultimos_movimientos (.ok rows) k).length ≤ k
    ∧ (rows.drop 1 = [] → obtener_ultimos_movimientos (.ok rows) k = [])
    ∧ (obtener_ultimos_movimientos (.ok rows) k).head?
        = ((rows.drop 1).getLast?).map formatMove := by
  have heq := obtener_ok_eq rows k
  refine ⟨heq, ?_, ?_, ?_⟩
  · rw [heq, List.length_map, List.length_reverse, pyTakeLast,
      if_neg (by omega : ¬ k = 0), List.length_drop]
    omega
  · intro hnil
    rw [heq, hnil]
    simp [pyTakeLast]
  · rw [heq, List.head?_map, List.head?_reverse, pyTakeLast,
      if_neg (by omega : ¬ k = 0)]
    by_cases hnil : rows.drop 1 = []
    · rw [hnil]
      simp
    · rw [getLast?_drop_of_lt]
      have := List.length_pos.mpr hnil
      omega

/-- A 12-movement demonstration ledger (header plus 12 data rows in
append order). -/
def demoLedger12 : List (List String) :=
  [["tipo", "desc", "monto", "fecha"],
   ["Crédito", "m1", "1", "2024-01-01"],
   ["Crédito", "m2", "2", "2024-01-02"],
   ["Crédito", "m3", "3", "2024-01-03"],
   ["Crédito", "m4", "4", "2024-01-04"],
   ["Crédito", "m5", "5", "2024-01-05"],
   ["Crédito", "m6", "6", "2024-01-06"],
   ["Crédito", "m7", "7", "2024-01-07"],
   ["Crédito", "m8", "8", "2024-01-08"],
   ["Crédito", "m9", "9", "2024-01-09"],
   ["Crédito", "m10", "10", "2024-01-10"],
   ["Crédito", "m11", "11", "2024-01-11"],
   ["Crédito", "m12", "12", "2024-01-12"]]

/-- Witness for C4: over 12 data rows with limit 10 the view has exactly
10 entries, newest first, the newest being the 12th appended row. -/
theorem C4_recent_movements_newest_first_witness :
    (0 : Nat) < 10
    ∧ (obtener_ultimos_movimientos (.ok demoLedger12) 10).length ≤ 10
    ∧ (obtener_ultimos_movimientos (.ok demoLedger12) 10).head?
        = ((demoLedger12.drop 1).getLast?).map formatMove
    ∧ (obtener_ultimos_movimientos (.ok demoLedger12) 10).length = 10
    ∧ (obtener_ultimos_movimientos (.ok demoLedger12) 10).head?
        = some ["2024-01-12", "CRÉDITO", "12", "m12"] := by
  have h := C4_recent_movements_newest_first demoLedger12 10 (by decide)
  exact ⟨by decide, h.2.1, h.2.2.2, by decide, by decide⟩

/-- C4 counterexample for limit 0: the Python slice `[-0:]` is `[0:]`,
the whole list, so with limit 0 the function returns every data row
instead of at most 0 of them. -/
theorem C4_limit_zero_counterexample :
    (obtener_ultimos_movimientos
        (.ok [["tipo", "desc", "monto", "fecha"],
              ["Crédito", "a", "10", "2024-01-01"],
              ["Débito", "b", "20", "2024-01-02"]]) 0).length = 2
    ∧ ¬ (obtener_ultimos_movimientos
        (.ok [["tipo", "desc", "monto", "fecha"],
              ["Crédito", "a", "10", "2024-01-01"],
              ["Débito", "b", "20", "2024-01-02"]]) 0).length ≤ 0 := by
  decide

/-! ## Claims about the Conversation State Machine -/

/-- C5: in every conversation state, an input outside that state's
accepted set leaves the session (`temp_data` and `selected_sheet`) and
the store untouched, re-emits the same state, and replies with that
state's error message. -/
theorem C5_invalid_input_stays (store : Store) (today : PyDate)
    (st : BotState) (s : Session) (text : String)
    (h : accepts st text = false) :
    (dispatch store today st s text).session = s
    ∧ (dispatch store today st s text).next = some st
    ∧ (dispatch store today st s text).reply.isError = true
    ∧ (dispatch store today st s text).store = store := by
  by_cases h0 : text = "0"
  · subst h0
    cases st with
    | menuPrincipal =>
        refine ⟨?_, ?_, ?_, ?_⟩ <;>
          simp +decide [dispatch, menu_principal, Reply.isError]
    | descripcionSt => simp [accepts] at h
    | tipoCuenta => simp [accepts] at h
    | tipoMovimiento => simp [accepts] at h
    | montoSt => simp [accepts] at h
    | fechaSt => simp [accepts] at h
    | verSaldo => simp [accepts] at h
    | verUltimos => simp [accepts] at h
  · have hdis : ∀ st', dispatch store today st' s text
        = (match st' with
           | .menuPrincipal => menu_principal store s text
           | .tipoCuenta => tipo_cuenta store s text
           | .tipoMovimiento => tipo_movimiento store s text
           | .descripcionSt => descripcion store s text
           | .montoSt => monto store s text
           | .fechaSt => fecha today store s text
           | .verSaldo => ver_saldo_seleccion_cuenta store s text
           | .verUltimos => ver_ultimos_seleccion_cuenta store s text) := by
      intro st'
      unfold dispatch
      rw [if_neg (by simp [h0])]
    cases st with
    | menuPrincipal =>
        simp only [accepts, Bool.or_eq_false_iff, decide_eq_false_iff_not] at h
        obtain ⟨⟨⟨h1, h2⟩, h3⟩, h5⟩ := h
        rw [hdis]
        simp [menu_principal, h1, h2, h3, h5, Reply.isError]
    | tipoCuenta =>
        simp only [accepts, Bool.or_eq_false_iff, decide_eq_false_iff_not] at h
        obtain ⟨⟨-, h1⟩, h2⟩ := h
        rw [hdis]
        simp [tipo_cuenta, h1, h2, Reply.isError]
    | tipoMovimiento =>
        simp only [accepts, Bool.or_eq_false_iff, decide_eq_false_iff_not] at h
        obtain ⟨⟨-, h1⟩, h2⟩ := h
        rw [hdis]
        simp [tipo_movimiento, h1, h2, Reply.isError]
    | descripcionSt => simp [accepts] at h
    | montoSt =>
        rw [hdis]
        cases hm : montoValue text with
        | none => simp [monto, hm, Reply.isError]
        | some v =>
            simp only [accepts, Bool.or_eq_false_iff,
              decide_eq_false_iff_not, hm] at h
            have hv : v ≤ 0 := by
              rcases h with ⟨-, h⟩
              simpa using h
            simp [monto, hm, if_pos hv, Reply.isError]
    | fechaSt =>
        simp only [accepts, Bool.or_eq_false_iff, decide_eq_false_iff_not] at h
        obtain ⟨⟨⟨⟨-, hk1⟩, hk2⟩, hk3⟩, hs⟩ := h
        have hs' : strptimeYMD (pyStrip text) = none :=
          Option.not_isSome_iff_eq_none.mp (by simp [hs])
        have hres : resolveFecha today text = none := by
          simp [resolveFecha, hk1, hk2, hk3, hs']
        rw [hdis]
        simp [fecha, hres, Reply.isError]
    | verSaldo =>
        simp only [accepts, Bool.or_eq_false_iff, decide_eq_false_iff_not] at h
        obtain ⟨⟨-, h1⟩, h2⟩ := h
        rw [hdis]
        simp [ver_saldo_seleccion_cuenta, h1, h2, Reply.isError]
    | verUltimos =>
        simp only [accepts, Bool.or_eq_false_iff, decide_eq_false_iff_not] at h
        obtain ⟨⟨-, h1⟩, h2⟩ := h
        rw [hdis]
        simp [ver_ultimos_seleccion_cuenta, h1, h2, Reply.isError]

/-- Witness for C5: the unaccepted input `9` in the main menu leaves a
concrete session, state and store unchanged and elicits the error
reply. -/
theorem C5_invalid_input_stays_witness :
    accepts .menuPrincipal "9" = false
    ∧ (dispatch (fun _ => [["tipo", "desc", "monto", "fecha"]]) ⟨2024, 6, 1⟩
        .menuPrincipal ⟨some {}, none⟩ "9").session = ⟨some {}, none⟩
    ∧ (dispatch (fun _ => [["tipo", "desc", "monto", "fecha"]]) ⟨2024, 6, 1⟩
        .menuPrincipal ⟨some {}, none⟩ "9").next = some .menuPrincipal
    ∧ (dispatch (fun _ => [["tipo", "desc", "monto", "fecha"]]) ⟨2024, 6, 1⟩
        .menuPrincipal ⟨some {}, none⟩ "9").reply.isError = true := by
  have h := C5_invalid_input_stays
    (fun _ => [["tipo", "desc", "monto", "fecha"]]) ⟨2024, 6, 1⟩
    .menuPrincipal ⟨some {}, none⟩ "9" (by decide)
  exact ⟨by decide, h.1, h.2.1, h.2.2.1⟩

/-- C6: the back-to-menu input `0` is accepted in every state other than
the main menu (terminal states have no handler at all): it resets the
session — `temp_data` becomes a fresh empty dict, `selected_sheet` is
cleared — returns to `MENU_PRINCIPAL`, and leaves the store untouched. -/
theorem C6_back_to_menu_resets (store : Store) (today : PyDate)
    (st : BotState) (s : Session) (h : st ≠ BotState.menuPrincipal) :
    (dispatch store today st s "0").session = startSession
    ∧ (dispatch store today st s "0").session.temp_data = some {}
    ∧ (dispatch store today st s "0").session.selected_sheet = none
    ∧ (dispatch store today st s "0").next = some .menuPrincipal
    ∧ (dispatch store today st s "0").reply = .volverMenu
    ∧ (dispatch store today st s "0").store = store := by
  unfold dispatch
  rw [if_pos ⟨h, rfl⟩]
  exact ⟨rfl, rfl, rfl, rfl, rfl, rfl⟩

/-- Witness for C6: pressing `0` while a movement is half-built in the
date-entry state discards it and returns to the menu. -/
theorem C6_back_to_menu_resets_witness :
    BotState.fechaSt ≠ BotState.menuPrincipal
    ∧ (dispatch (fun _ => [["tipo", "desc", "monto", "fecha"]]) ⟨2024, 6, 1⟩
        .fechaSt
        ⟨some { account_name := some "Personal-Cris",
                movimiento := some "Crédito", descripcion := some "cafe",
                monto := some 5000 },
         some .personal⟩ "0").session.temp_data = some {}
    ∧ (dispatch (fun _ => [["tipo", "desc", "monto", "fecha"]]) ⟨2024, 6, 1⟩
        .fechaSt
        ⟨some { account_name := some "Personal-Cris",
                movimiento := some "Crédito", descripcion := some "cafe",
                monto := some 5000 },
         some .personal⟩ "0").session.selected_sheet = none
    ∧ (dispatch (fun _ => [["tipo", "desc", "monto", "fecha"]]) ⟨2024, 6, 1⟩
        .fechaSt
        ⟨some { account_name := some "Personal-Cris",
                movimiento := some "Crédito", descripcion := some "cafe",
                monto := some 5000 },
         some .personal⟩ "0").next = some .menuPrincipal := by
  have h := C6_back_to_menu_resets
    (fun _ => [["tipo", "desc", "monto", "fecha"]]) ⟨2024, 6, 1⟩ .fechaSt
    ⟨some { account_name := some "Personal-Cris",
            movimiento := some "Crédito", descripcion := some "cafe",
            monto := some 5000 },
     some .personal⟩ (by decide)
  exact ⟨by decide, h.2.1, h.2.2.1, h.2.2.2.1⟩

/-- C2 counterexample: the input `12abc` is not parseable as an integer
(Python `int` raises on it), yet the `monto` handler accepts it — the
regex `^-?\d+` replaces the cleaned input by its leading integer segment
`12`, the state advances to date entry and the amount 12 is stored, so
the handler does not fail exactly on the non-numeric inputs. -/
theorem C2_integer_prefix_accepted_counterexample :
    pyIntParse "12abc" = none
    ∧ montoValue "12abc" = some 12
    ∧ (dispatch (fun _ => [["tipo", "desc", "monto", "fecha"]]) ⟨2024, 6, 1⟩
        .montoSt ⟨some {}, none⟩ "12abc").next = some .fechaSt
    ∧ (dispatch (fun _ => [["tipo", "desc", "monto", "fecha"]]) ⟨2024, 6, 1⟩
        .montoSt ⟨some {}, none⟩ "12abc").session.temp_data
        = some { monto := some 12 }
    ∧ (dispatch (fun _ => [["tipo", "desc", "monto", "fecha"]]) ⟨2024, 6, 1⟩
        .montoSt ⟨some {}, none⟩ "12abc").reply.isError = false := by
  decide

/-- C2 (amended): the `monto` handler strips the input, takes a preset
denomination literally, otherwise removes `$` and `,` and takes the
integer given by the leading `-?digits` segment of the cleaned input
when one exists (so trailing junk as in `12abc` is ignored), else parses
the whole cleaned input as an integer; it fails — the state remains
`MONTO` with an error reply and nothing is stored — EXACTLY when this
value is absent (`InvalidAmount` format error) or non-positive; on
success the amount is stored and the state advances to date entry.  In
particular `$12,000` parses to 12000, and `-5` and `abc` are rejected. -/
theorem C2_amount_entry (store : Store) (today : PyDate) (s : Session)
    (text : String) :
    (montoValue "$12,000" = some 12000
     ∧ montoValue "-5" = some (-5)
     ∧ montoValue "abc" = none)
    ∧ (text ≠ "0" → montoValue text = none →
        (dispatch store today .montoSt s text).session = s
        ∧ (dispatch store today .montoSt s text).next = some .montoSt
        ∧ (dispatch store today .montoSt s text).reply = .invalidMontoFormato)
    ∧ (∀ v, text ≠ "0" → montoValue text = some v → v ≤ 0 →
        (dispatch store today .montoSt s text).session = s
        ∧ (dispatch store today .montoSt s text).next = some .montoSt
        ∧ (dispatch store today .montoSt s text).reply = .invalidMontoNoPositivo)
    ∧ (∀ v, text ≠ "0" → montoValue text = some v → 0 < v →
        (dispatch store today .montoSt s text).next = some .fechaSt
        ∧ (dispatch store today .montoSt s text).session
            = ⟨some { s.temp_data.getD {} with monto := some v },
               s.selected_sheet⟩
        ∧ (dispatch store today .montoSt s text).reply = .promptFecha)
    ∧ (text ≠ "0" →
        (((dispatch store today .montoSt s text).next = some .montoSt
          ∧ (dispatch store today .montoSt s text).session = s
          ∧ (dispatch store today .montoSt s text).reply.isError = true)
         ↔ (montoValue text = none
            ∨ ∃ v, montoValue text = some v ∧ v ≤ 0))) := by
  have hdis : ∀ t, t ≠ "0" →
      dispatch store today .montoSt s t = monto store s t := by
    intro t ht
    unfold dispatch
    rw [if_neg (by simp [ht])]
  have hfail_none : text ≠ "0" → montoValue text = none →
      (dispatch store today .montoSt s text).session = s
      ∧ (dispatch store today .montoSt s text).next = some .montoSt
      ∧ (dispatch store today .montoSt s text).reply = .invalidMontoFormato := by
    intro h0 hm
    rw [hdis text h0]
    simp [monto, hm]
  have hfail_nonpos : ∀ v, text ≠ "0" → montoValue text = some v → v ≤ 0 →
      (dispatch store today .montoSt s text).session = s
      ∧ (dispatch store today .montoSt s text).next = some .montoSt
      ∧ (dispatch store today .montoSt s text).reply
          = .invalidMontoNoPositivo := by
    intro v h0 hm hv
    rw [hdis text h0]
    simp [monto, hm, if_pos hv]
  have hsucc : ∀ v, text ≠ "0" → montoValue text = some v → 0 < v →
      (dispatch store today .montoSt s text).next = some .fechaSt
      ∧ (dispatch store today .montoSt s text).session
          = ⟨some { s.temp_data.getD {} with monto := some v },
             s.selected_sheet⟩
      ∧ (dispatch store today .montoSt s text).reply = .promptFecha := by
    intro v h0 hm hv
    rw [hdis text h0]
    simp [monto, hm, if_neg (by omega : ¬ v ≤ 0)]
  refine ⟨by decide, hfail_none, hfail_nonpos, hsucc, ?_⟩
  intro h0
  constructor
  · rintro ⟨hnext, -, -⟩
    cases hm : montoValue text with
    | none => exact Or.inl rfl
    | some v =>
        by_cases hv : v ≤ 0
        · exact Or.inr ⟨v, rfl, hv⟩
        · exfalso
          have hx := (hsucc v h0 hm (by omega)).1
          rw [hx] at hnext
          simp at hnext
  · rintro (hm | ⟨v, hm, hv⟩)
    · have h := hfail_none h0 hm
      exact ⟨h.2.1, h.1, by rw [h.2.2]; rfl⟩
    · have h := hfail_nonpos v h0 hm hv
      exact ⟨h.2.1, h.1, by rw [h.2.2]; rfl⟩

/-- Witness for C2 at the three scenario inputs. -/
theorem C2_amount_entry_witness :
    montoValue "$12,000" = some 12000
    ∧ (dispatch (fun _ => [["tipo", "desc", "monto", "fecha"]]) ⟨2024, 6, 1⟩
        .montoSt ⟨some {}, none⟩ "$12,000").session.temp_data
        = some { monto := some 12000 }
    ∧ (dispatch (fun _ => [["tipo", "desc", "monto", "fecha"]]) ⟨2024, 6, 1⟩
        .montoSt ⟨some {}, none⟩ "$12,000").next = some .fechaSt
    ∧ (dispatch (fun _ => [["tipo", "desc", "monto", "fecha"]]) ⟨2024, 6, 1⟩
        .montoSt ⟨some {}, none⟩ "-5").next = some .montoSt
    ∧ (dispatch (fun _ => [["tipo", "desc", "monto", "fecha"]]) ⟨2024, 6, 1⟩
        .montoSt ⟨some {}, none⟩ "-5").session = ⟨some {}, none⟩
    ∧ (dispatch (fun _ => [["tipo", "desc", "monto", "fecha"]]) ⟨2024, 6, 1⟩
        .montoSt ⟨some {}, none⟩ "abc").next = some .montoSt
    ∧ (dispatch (fun _ => [["tipo", "desc", "monto", "fecha"]]) ⟨2024, 6, 1⟩
        .montoSt ⟨some {}, none⟩ "abc").session = ⟨some {}, none⟩
    ∧ (dispatch (fun _ => [["tipo", "desc", "monto", "fecha"]]) ⟨2024, 6, 1⟩
        .montoSt ⟨some {}, none⟩ "abc").reply.isError = true := by
  have hok := (C2_amount_entry (fun _ => [["tipo", "desc", "monto", "fecha"]])
    ⟨2024, 6, 1⟩ ⟨some {}, none⟩ "$12,000").2.2.2.1 12000
    (by decide) (by decide) (by decide)
  have hneg := (C2_amount_entry (fun _ => [["tipo", "desc", "monto", "fecha"]])
    ⟨2024, 6, 1⟩ ⟨some {}, none⟩ "-5").2.2.1 (-5)
    (by decide) (by decide) (by decide)
  have habc := ((C2_amount_entry (fun _ => [["tipo", "desc", "monto", "fecha"]])
    ⟨2024, 6, 1⟩ ⟨some {}, none⟩ "abc").2.2.2.2
    (by decide)).mpr (Or.inl (by decide))
  exact ⟨by decide, by rw [hok.2.1]; rfl, hok.1, hneg.2.1, hneg.1,
    habc.1, habc.2.1, habc.2.2⟩

/-- C3 counterexample: CPython's `strptime('%Y-%m-%d')` matches `%m` and
`%d` as one or two digits, so the input `2024-6-1` — which does not
strictly match the zero-padded `YYYY-MM-DD` shape — is accepted and
stored verbatim instead of being rejected with `InvalidDate`: the
conversation advances and the appended row carries `2024-6-1`. -/
theorem C3_unpadded_date_accepted_counterexample :
    resolveFecha ⟨2024, 6, 15⟩ "2024-6-1" = some "2024-6-1"
    ∧ (strptimeYMD "2024-6-1").isSome = true
    ∧ "2024-6-1" ≠ fmtDate ⟨2024, 6, 1⟩
    ∧ (dispatch (fun _ => [["tipo", "desc", "monto", "fecha"]]) ⟨2024, 6, 15⟩
        .fechaSt ⟨some {}, some .personal⟩ "2024-6-1").next
        = some .menuPrincipal
    ∧ (dispatch (fun _ => [["tipo", "desc", "monto", "fecha"]]) ⟨2024, 6, 15⟩
        .fechaSt ⟨some {}, some .personal⟩ "2024-6-1").reply.isError
        = false := by
  decide

/-- C3 (amended): the case-insensitive keywords `hoy`/`ayer`/`anteayer`
resolve to the current date minus 0, 1 and 2 days, formatted as
zero-padded `YYYY-MM-DD`; every other input is accepted exactly when
`strptime('%Y-%m-%d')` accepts it — a 4-digit year and a 1- or 2-digit
month and day forming a valid calendar date, stored verbatim without
re-padding — and otherwise the handler re-prompts in the same state with
`InvalidDate` and no session or store change; in particular
`2024-13-40` is rejected. -/
theorem C3_date_entry (today : PyDate) (store : Store) (s : Session)
    (text : String) :
    (pyLower (pyStrip text) = "hoy" →
        resolveFecha today text = some (fmtDate today))
    ∧ (pyLower (pyStrip text) = "ayer" →
        resolveFecha today text = some (fmtDate (subDays today 1)))
    ∧ (pyLower (pyStrip text) = "anteayer" →
        resolveFecha today text = some (fmtDate (subDays today 2)))
    ∧ (pyLower (pyStrip text) ≠ "hoy" → pyLower (pyStrip text) ≠ "ayer" →
        pyLower (pyStrip text) ≠ "anteayer" →
        resolveFecha today text
          = if (strptimeYMD (pyStrip text)).isSome then some (pyStrip text)
            else none)
    ∧ strptimeYMD "2024-13-40" = none
    ∧ (text ≠ "0" → resolveFecha today text = none →
        (dispatch store today .fechaSt s text).session = s
        ∧ (dispatch store today .fechaSt s text).next = some .fechaSt
        ∧ (dispatch store today .fechaSt s text).reply = .invalidFecha
        ∧ (dispatch store today .fechaSt s text).store = store) := by
  refine ⟨?_, ?_, ?_, ?_, by decide, ?_⟩
  · intro hk
    simp [resolveFecha, hk]
  · intro hk
    simp +decide [resolveFecha, hk]
  · intro hk
    simp +decide [resolveFecha, hk]
  · intro h1 h2 h3
    simp [resolveFecha, h1, h2, h3]
  · intro h0 hres
    have hdis : dispatch store today .fechaSt s text
        = fecha today store s text := by
      unfold dispatch
      rw [if_neg (by simp [h0])]
    rw [hdis]
    simp [fecha, hres]

/-- Witness for C3: on 2024-06-01 the keyword `Hoy` stores `2024-06-01`,
`AYER` stores `2024-05-31`, and `2024-13-40` is rejected in place. -/
theorem C3_date_entry_witness :
    resolveFecha ⟨2024, 6, 1⟩ "Hoy" = some (fmtDate ⟨2024, 6, 1⟩)
    ∧ fmtDate ⟨2024, 6, 1⟩ = "2024-06-01"
    ∧ resolveFecha ⟨2024, 6, 1⟩ "AYER"
        = some (fmtDate (subDays ⟨2024, 6, 1⟩ 1))
    ∧ fmtDate (subDays ⟨2024, 6, 1⟩ 1) = "2024-05-31"
    ∧ strptimeYMD "2024-13-40" = none
    ∧ (dispatch (fun _ => [["tipo", "desc", "monto", "fecha"]]) ⟨2024, 6, 1⟩
        .fechaSt ⟨some {}, some .personal⟩ "2024-13-40").next = some .fechaSt
    ∧ (dispatch (fun _ => [["tipo", "desc", "monto", "fecha"]]) ⟨2024, 6, 1⟩
        .fechaSt ⟨some {}, some .personal⟩ "2024-13-40").session
        = ⟨some {}, some .personal⟩ := by
  have hhoy := (C3_date_entry ⟨2024, 6, 1⟩
    (fun _ => [["tipo", "desc", "monto", "fecha"]])
    ⟨some {}, some .personal⟩ "Hoy").1 (by decide)
  have hayer := (C3_date_entry ⟨2024, 6, 1⟩
    (fun _ => [["tipo", "desc", "monto", "fecha"]])
    ⟨some {}, some .personal⟩ "AYER").2.1 (by decide)
  have hbad := (C3_date_entry ⟨2024, 6, 1⟩
    (fun _ => [["tipo", "desc", "monto", "fecha"]])
    ⟨some {}, some .personal⟩ "2024-13-40").2.2.2.2.2
    (by decide) (by decide)
  exact ⟨hhoy, by decide, hayer, by decide, by decide, hbad.2.1, hbad.1⟩

end Plata
